import Mathlib

/-!
# pysql-repo — verification of the filter compiler, statement helpers and repository facade

Shallow embedding of `pysql_repo/utils.py` (filter compilation, order-by,
pagination) and `pysql_repo/_repository.py` (update/delete/add repository
operations), with the SQLAlchemy session/engine modelled as an explicit
state and an abstract predicate evaluator, as the spec treats them as
external collaborators.

Python dynamic values are embedded as the inductive `PyValue`; dictionaries
are association lists in insertion order, matching Python's ordered dicts.
Fallible Python code (raised `TypeError` / `ValueError` / `ZeroDivisionError`
and friends) is embedded in `Except String`.
-/

/-- Modelled from the spec: the closed operator enumeration
(`pysql_repo/constants/enum.py` is not part of the provided sources; §3 of
the spec lists its members: EQUAL, IEQUAL, DIFFERENT, IDIFFERENT, LIKE,
ILIKE, NOT_LIKE, NOT_ILIKE, BETWEEN, BETWEEN_OR_EQUAL, SUPERIOR, INFERIOR,
SUPERIOR_OR_EQUAL, INFERIOR_OR_EQUAL, IN, IIN, NOT_IN, NOT_IIN, HAS, ANY). -/
inductive Operators where
  | EQUAL
  | IEQUAL
  | DIFFERENT
  | IDIFFERENT
  | LIKE
  | ILIKE
  | NOT_LIKE
  | NOT_ILIKE
  | BETWEEN
  | BETWEEN_OR_EQUAL
  | SUPERIOR
  | INFERIOR
  | SUPERIOR_OR_EQUAL
  | INFERIOR_OR_EQUAL
  | IN
  | IIN
  | NOT_IN
  | NOT_IIN
  | HAS
  | ANY
deriving DecidableEq

/-- A dynamic Python value as it can appear in a filter mapping:
`vnone` is Python `None`, `vnull` the SQLAlchemy `Null` sentinel,
`vop` an `Operators` enum member used as a dict key, `vcol` an
`InstrumentedAttribute` (a mapped column, identified by its name),
`vtup` a tuple (e.g. a composite column key), and `vdict` a dict as an
association list in insertion order (Python dicts are ordered). -/
inductive PyValue where
  | vnone
  | vnull
  | vint (n : Int)
  | vstr (s : String)
  | vbool (b : Bool)
  | vop (o : Operators)
  | vcol (name : String)
  | vtup (xs : List PyValue)
  | vlist (xs : List PyValue)
  | vset (xs : List PyValue)
  | vdict (entries : List (PyValue × PyValue))

/-- One element of the list built by
`[func.lower(v_) if not isinstance(v_, Null) else v_ for v_ in v]`:
either a lower-cased value or the raw `Null` sentinel. -/
inductive LowVal where
  | low (v : PyValue)
  | raw (v : PyValue)

/-- A compiled SQLAlchemy column expression, exactly as
`get_conditions_from_dict` builds them (one constructor per syntactic
shape appended to `conditions`). -/
inductive Condition where
  | eqC (key v : PyValue)
  | neC (key v : PyValue)
  | lowerEq (key v : PyValue)
  | lowerNe (key v : PyValue)
  | likeC (key v : PyValue)
  | notLikeC (key v : PyValue)
  | ilikeC (key v : PyValue)
  | notIlikeC (key v : PyValue)
  | gtC (key v : PyValue)
  | ltC (key v : PyValue)
  | geC (key v : PyValue)
  | leC (key v : PyValue)
  | inC (key v : PyValue)
  | tupleIn (keys : List PyValue) (v : PyValue)
  | lowerIn (key : PyValue) (vs : List LowVal)
  | tupleLowerIn (keys : List PyValue) (vs : List LowVal)
  | notInC (key v : PyValue)
  | tupleNotIn (keys : List PyValue) (v : PyValue)
  | lowerNotIn (key : PyValue) (vs : List LowVal)
  | tupleLowerNotIn (keys : List PyValue) (vs : List LowVal)
  | hasC (key : PyValue) (cond : Condition)
  | anyC (key : PyValue) (conds : List Condition)

namespace PyValue

/-- `v is None`. -/
def isNone : PyValue → Bool
  | .vnone => true
  | _ => false

/-- `isinstance(v, Null)` — the SQLAlchemy null sentinel; Python `None`
is not an instance of `Null`. -/
def isNull : PyValue → Bool
  | .vnull => true
  | _ => false

/-- `isinstance(v, Iterable)`: strings, tuples, lists, sets and dicts are
iterable; `None`, `Null`, ints, bools, enum members and columns are not. -/
def isIterable : PyValue → Bool
  | .vstr _ => true
  | .vtup _ => true
  | .vlist _ => true
  | .vset _ => true
  | .vdict _ => true
  | _ => false

/-- `v if isinstance(v, Iterable) else [v]`. -/
def wrapIterable (v : PyValue) : PyValue :=
  if v.isIterable then v else .vlist [v]

/-- The elements produced by `for v_ in v`: list/set/tuple elements, the
characters of a string, the keys of a dict.  Non-iterables yield nothing,
but the compiler only iterates values already guarded by `isIterable`
(via `wrapIterable`), so those cases are unreachable there. -/
def elems : PyValue → List PyValue
  | .vlist xs => xs
  | .vset xs => xs
  | .vtup xs => xs
  | .vstr s => s.toList.map (fun c => .vstr (String.mk [c]))
  | .vdict es => es.map (·.1)
  | _ => []

/-- `len(v)`; raises `TypeError` on objects without a length. -/
def pyLen : PyValue → Except String Nat
  | .vstr s => .ok s.length
  | .vtup xs => .ok xs.length
  | .vlist xs => .ok xs.length
  | .vset xs => .ok xs.length
  | .vdict es => .ok es.length
  | _ => .error "TypeError: object has no len()"

/-- Python `k == i` for an integer literal `i` used as a dict subscript
(`True == 1` and `False == 0` in Python). -/
def keyEqInt (k : PyValue) (i : Nat) : Bool :=
  match k with
  | .vint m => m == (i : Int)
  | .vbool b => (if b then (1 : Int) else 0) == (i : Int)
  | _ => false

/-- `v[i]` for a small non-negative integer literal `i`: sequence indexing
for lists/tuples/strings, key lookup for dicts, and a `TypeError` for
sets and non-subscriptable values. -/
def pySubscript (v : PyValue) (i : Nat) : Except String PyValue :=
  match v with
  | .vlist xs =>
      match xs.get? i with
      | some x => .ok x
      | none => .error "IndexError: list index out of range"
  | .vtup xs =>
      match xs.get? i with
      | some x => .ok x
      | none => .error "IndexError: tuple index out of range"
  | .vstr s =>
      match s.toList.get? i with
      | some c => .ok (.vstr (String.mk [c]))
      | none => .error "IndexError: string index out of range"
  | .vdict es =>
      match es.find? (fun e => keyEqInt e.1 i) with
      | some e => .ok e.2
      | none => .error "KeyError"
  | _ => .error "TypeError: object is not subscriptable"

end PyValue

/-- Sequencing of two condition-list computations: first failure wins,
otherwise the lists are concatenated (mirrors `conditions.append`-style
accumulation with Python exception propagation). -/
def exCat (a b : Except String (List Condition)) : Except String (List Condition) :=
  match a with
  | .error e => .error e
  | .ok xs =>
      match b with
      | .error e => .error e
      | .ok ys => .ok (xs ++ ys)

mutual

/-- `get_filters` (utils.py:484-506): `None` yields `[]`; a non-dict
raises `TypeError("<filters> must be type of <dict>")`; a dict is split
into the singleton dicts `[{x: y} for x, y in filters.items()]` whose
compiled conditions are concatenated. -/
def getFilters (withOptional : Bool) (filters : PyValue) : Except String (List Condition) :=
  match filters with
  | .vnone => .ok []
  | .vdict entries =>
      -- filters = [{x: y} for x, y in filters.items()]; every element is a dict,
      -- so the `type(filter_c) is not dict` guard never skips, and the loop
      -- extends `conditions` with get_conditions_from_dict of each singleton.
      getFiltersLoop withOptional entries
  | _ => .error "<filters> must be type of <dict>"
termination_by 3 * sizeOf filters + 2
decreasing_by
  all_goals simp_wf
  all_goals omega

/-- The `for filter_c in filters` loop of `get_filters`, over the
singleton dicts `{x: y}`. -/
def getFiltersLoop (withOptional : Bool) (entries : List (PyValue × PyValue)) :
    Except String (List Condition) :=
  match entries with
  | [] => .ok []
  | (x, y) :: rest =>
      exCat (getConditionsFromDict withOptional [(x, y)])
        (getFiltersLoop withOptional rest)
termination_by 3 * sizeOf entries + 4
decreasing_by
  all_goals simp_wf
  all_goals omega

/-- `get_conditions_from_dict` (utils.py:324-481), iterating
`values.items()`.  A set-valued entry is rebound to a list
(`value = list(value)`) and then — since no further branch applies —
contributes no condition; only a dict-valued entry enters the
operator loop. -/
def getConditionsFromDict (withOptional : Bool) (values : List (PyValue × PyValue)) :
    Except String (List Condition) :=
  match values with
  | [] => .ok []
  | (key, value) :: rest =>
      exCat
        (match value with
          | .vset _ => .ok []
          | .vdict ops => opLoop withOptional key ops
          | _ => .ok [])
        (getConditionsFromDict withOptional rest)
termination_by 3 * sizeOf values
decreasing_by
  all_goals simp_wf
  all_goals omega

/-- The `for k, v in value.items()` loop: `if with_optional and v is None:
continue`, then the `match k` operator dispatch. -/
def opLoop (withOptional : Bool) (key : PyValue) (ops : List (PyValue × PyValue)) :
    Except String (List Condition) :=
  match ops with
  | [] => .ok []
  | (k, v) :: rest =>
      if withOptional && v.isNone then opLoop withOptional key rest
      else exCat (opCond withOptional key k v) (opLoop withOptional key rest)
termination_by 3 * sizeOf ops
decreasing_by
  all_goals simp_wf
  all_goals omega

/-- The `match k` arms of `get_conditions_from_dict`: the conditions
appended for a single operator entry `k: v` under field `key`.  A key
that is not an `Operators` member matches no arm and contributes
nothing. -/
def opCond (withOptional : Bool) (key k v : PyValue) : Except String (List Condition) :=
  match k with
  | .vop .EQUAL => .ok [.eqC key v]
  | .vop .IEQUAL =>
      .ok (if !v.isNull then [.lowerEq key v] else [.eqC key v])
  | .vop .DIFFERENT => .ok [.neC key v]
  | .vop .IDIFFERENT =>
      .ok (if !v.isNull then [.lowerNe key v] else [.neC key v])
  | .vop .LIKE =>
      .ok (if !v.isNull then [.likeC key v] else [.eqC key v])
  | .vop .NOT_LIKE =>
      .ok (if !v.isNull then [.notLikeC key v] else [.neC key v])
  | .vop .ILIKE =>
      .ok (if !v.isNull then [.ilikeC key v] else [.eqC key v])
  | .vop .NOT_ILIKE =>
      .ok (if !v.isNull then [.notIlikeC key v] else [.neC key v])
  | .vop .BETWEEN =>
      match v.pyLen with
      | .error e => .error e
      | .ok n =>
          if n ≠ 2 then .ok []
          else
            match v.pySubscript 0 with
            | .error e => .error e
            | .ok v0 =>
                match v.pySubscript 1 with
                | .error e => .error e
                | .ok v1 =>
                    .ok ((if !v0.isNone then [.gtC key v0] else []) ++
                         (if !v1.isNone then [.ltC key v1] else []))
  | .vop .BETWEEN_OR_EQUAL =>
      match v.pyLen with
      | .error e => .error e
      | .ok n =>
          if n ≠ 2 then .ok []
          else
            match v.pySubscript 0 with
            | .error e => .error e
            | .ok v0 =>
                match v.pySubscript 1 with
                | .error e => .error e
                | .ok v1 =>
                    .ok ((if !v0.isNone then [.geC key v0] else []) ++
                         (if !v1.isNone then [.leC key v1] else []))
  | .vop .SUPERIOR => .ok [.gtC key v]
  | .vop .INFERIOR => .ok [.ltC key v]
  | .vop .SUPERIOR_OR_EQUAL => .ok [.geC key v]
  | .vop .INFERIOR_OR_EQUAL => .ok [.leC key v]
  | .vop .IN =>
      let v' := v.wrapIterable
      .ok (match key with
            | .vtup ks => [.tupleIn ks v']
            | _ => [.inC key v'])
  | .vop .IIN =>
      let v' := v.wrapIterable
      let vs := v'.elems.map (fun x => if x.isNull then LowVal.raw x else LowVal.low x)
      .ok (match key with
            | .vtup ks => [.tupleLowerIn ks vs]
            | _ => [.lowerIn key vs])
  | .vop .NOT_IN =>
      let v' := v.wrapIterable
      .ok (match key with
            | .vtup ks => [.tupleNotIn ks v']
            | _ => [.notInC key v'])
  | .vop .NOT_IIN =>
      let v' := v.wrapIterable
      let vs := v'.elems.map (fun x => if x.isNull then LowVal.raw x else LowVal.low x)
      .ok (match key with
            | .vtup ks => [.tupleLowerNotIn ks vs]
            | _ => [.lowerNotIn key vs])
  | .vop .HAS =>
      match getFilters withOptional v with
      | .error e => .error e
      | .ok cs => .ok (cs.map (fun c => Condition.hasC key c))
  | .vop .ANY =>
      match getFilters withOptional v with
      | .error e => .error e
      | .ok cs => if cs.length = 0 then .ok [] else .ok [.anyC key cs]
  | _ => .ok []
termination_by 3 * sizeOf v + 3
decreasing_by
  all_goals simp_wf

end

/-- One ORDER BY term: `asc(getattr(model, column))` or
`desc(getattr(model, column))`. -/
inductive OrderTerm where
  | ascT (column : String)
  | descT (column : String)
deriving DecidableEq

/-- The Python `Union[List[str], str]` shape of `order_by` / `direction`. -/
inductive StrOrList where
  | str (s : String)
  | list (xs : List String)

/-- A select statement, restricted to the parts the helpers under
verification touch: WHERE conditions, ORDER BY terms, OFFSET and LIMIT. -/
structure SelectStmt where
  whereConds : List Condition := []
  orderTerms : List OrderTerm := []
  offsetv : Option Int := none
  limitv : Option Int := none

/-- The body of the `for column, dir in zip(order_by, direction)` loop of
`apply_order_by`: `"desc"` and `"asc"` (exact, case-sensitive comparison)
contribute a term, anything else contributes nothing. -/
def orderTermsOf : List (String × String) → List OrderTerm
  | [] => []
  | (column, dir) :: rest =>
      (if dir = "desc" then [OrderTerm.descT column]
       else if dir = "asc" then [OrderTerm.ascT column]
       else []) ++ orderTermsOf rest

/-- `apply_order_by` (utils.py:237-262): no-op when either argument is
`None`; strings are coerced to singleton lists; mismatched lengths raise
`ValueError`; otherwise the zipped pairs are translated by `orderTermsOf`
and appended to the statement's ordering. -/
def applyOrderBy (stmt : SelectStmt) (orderBy direction : Option StrOrList) :
    Except String SelectStmt :=
  match orderBy, direction with
  | none, _ => .ok stmt
  | _, none => .ok stmt
  | some ob, some dir =>
      let obL := match ob with | .str s => [s] | .list xs => xs
      let dirL := match dir with | .str s => [s] | .list xs => xs
      if obL.length ≠ dirL.length then
        .error "order_by length must be equals to direction length"
      else
        .ok { stmt with orderTerms := stmt.orderTerms ++ orderTermsOf (obL.zip dirL) }

/-- Python `//` (floor division); raises `ZeroDivisionError` on a zero
divisor. -/
def pyFloorDiv (a b : Int) : Except String Int :=
  if b = 0 then .error "ZeroDivisionError: integer division or modulo by zero"
  else .ok (Int.fdiv a b)

/-- `apply_pagination` (utils.py:265-288).  The count query
`session.scalar(select(func.count()).select_from(stmt))` is an engine
round trip; its result is passed in as `totalResults`.  The pagination
dict is kept as its ordered field list; `json.dumps` serializes it
field-for-field and is injective on it, so nothing is lost by not
rendering the string. -/
def applyPagination (totalResults : Int) (stmt : SelectStmt)
    (page perPage : Option Int) :
    Except String (SelectStmt × Option (List (String × Int))) :=
  match page, perPage with
  | none, _ => .ok (stmt, none)
  | _, none => .ok (stmt, none)
  | some p, some pp =>
      match pyFloorDiv (totalResults + pp - 1) pp with
      | .error e => .error e
      | .ok totalPages =>
          let pagination : List (String × Int) :=
            [("total", totalResults), ("page", p), ("per_page", pp),
             ("total_pages", totalPages)]
          .ok ({ stmt with offsetv := some ((p - 1) * pp), limitv := some pp },
               some pagination)

/-- `async_apply_pagination` (utils.py:291-314): the asynchronous variant,
translated separately from its own body; `await session.scalar(...)` is
the same engine round trip, passed in as `totalResults`. -/
def asyncApplyPagination (totalResults : Int) (stmt : SelectStmt)
    (page perPage : Option Int) :
    Except String (SelectStmt × Option (List (String × Int))) :=
  match page, perPage with
  | none, _ => .ok (stmt, none)
  | _, none => .ok (stmt, none)
  | some p, some pp =>
      match pyFloorDiv (totalResults + pp - 1) pp with
      | .error e => .error e
      | .ok totalPages =>
          let pagination : List (String × Int) :=
            [("total", totalResults), ("page", p), ("per_page", pp),
             ("total_pages", totalPages)]
          .ok ({ stmt with offsetv := some ((p - 1) * pp), limitv := some pp },
               some pagination)

/-- A mapped row: its column values by column name. -/
abbrev Row := List (String × PyValue)

/-- The session and engine state visible to the repository layer
(the engine itself is an external collaborator, spec §1/§6): `rows` is
the table contents as seen inside the open transaction, `durable` the
committed contents, and `refreshed` the log of `session.refresh(item)`
calls in order. -/
structure SessionState where
  rows : List Row
  durable : List Row
  refreshed : List Row

/-- `session.flush()`: pending changes are sent to the engine and become
visible inside the same transaction (already reflected in `rows`), but
nothing becomes durable. -/
def flushS (st : SessionState) : SessionState := st

/-- `session.commit()`: the transaction is finalized; the transaction
view becomes the durable state. -/
def commitS (st : SessionState) : SessionState :=
  { st with durable := st.rows }

/-- `[session.refresh(item) for item in items]`, issued sequentially
(synchronous model). -/
def refreshS (st : SessionState) (items : List Row) : SessionState :=
  { st with refreshed := st.refreshed ++ items }

/-- The engine's evaluation of one compiled predicate against a row —
delegated to the external engine, hence an abstract parameter. -/
abbrev CondEval := Condition → Row → Bool

/-- A row satisfies `stmt.filter(and_(*conds))`: the conjunction of all
compiled predicates (an empty list means no WHERE clause, which every
row satisfies). -/
def rowMatches (eval : CondEval) (conds : List Condition) (r : Row) : Bool :=
  conds.all (fun c => eval c r)

/-- An UPDATE ... RETURNING statement: the compiled WHERE predicates and
the SET payload. -/
structure UpdateStmt where
  whereConds : List Condition
  setValues : List (String × PyValue)

/-- A DELETE ... RETURNING statement: the compiled WHERE predicates. -/
structure DeleteStmt where
  whereConds : List Condition

/-- The string-keyed entries of a values dict (all keys are checked to be
strings before this is used). -/
def strEntries : PyValue → List (String × PyValue)
  | .vdict es =>
      es.filterMap (fun e =>
        match e.1 with
        | .vstr s => some (s, e.2)
        | _ => none)
  | _ => []

/-- `build_update_stmt` (utils.py:110-122):
`apply_filters(update(model), filters).values(values).returning(model)`;
`apply_filters` compiles with `with_optional=False` and adds the
conjunction only when non-empty (an empty condition list is no WHERE
clause, same engine semantics). -/
def buildUpdateStmt (values filters : PyValue) : Except String UpdateStmt :=
  match getFilters false filters with
  | .error e => .error e
  | .ok conds => .ok { whereConds := conds, setValues := strEntries values }

/-- `build_delete_stmt` (utils.py:131-138):
`apply_filters(delete(model), filters).returning(model)`. -/
def buildDeleteStmt (filters : PyValue) : Except String DeleteStmt :=
  match getFilters false filters with
  | .error e => .error e
  | .ok conds => .ok { whereConds := conds }

/-- Overwrite (or add) one column of a row, as `UPDATE ... SET col = v`
leaves it. -/
def setCol (r : Row) (k : String) (v : PyValue) : Row :=
  if r.any (fun e => e.1 == k) then
    r.map (fun e => if e.1 == k then (k, v) else e)
  else r ++ [(k, v)]

/-- Apply an UPDATE's SET payload to one row. -/
def applyValues (vals : List (String × PyValue)) (r : Row) : Row :=
  vals.foldl (fun acc kv => setCol acc kv.1 kv.2) r

/-- `session.execute(update_stmt).unique().scalars().all()`: the engine
updates every matching row in place and RETURNING yields the updated
rows. -/
def executeUpdateReturning (eval : CondEval) (stmt : UpdateStmt) (st : SessionState) :
    List Row × SessionState :=
  let updated := (st.rows.filter (rowMatches eval stmt.whereConds)).map
      (applyValues stmt.setValues)
  (updated,
   { st with rows := st.rows.map (fun r =>
       if rowMatches eval stmt.whereConds r then applyValues stmt.setValues r else r) })

/-- `session.execute(delete_stmt).unique().scalars().all()`: the engine
removes every matching row and RETURNING yields the removed rows. -/
def executeDeleteReturning (eval : CondEval) (stmt : DeleteStmt) (st : SessionState) :
    List Row × SessionState :=
  ((st.rows.filter (rowMatches eval stmt.whereConds)),
   { st with rows := st.rows.filter (fun r => !rowMatches eval stmt.whereConds r) })

/-- The `@check_values(as_list=False)` validity test (_decorators.py:43-48):
`values` must be a non-empty dict with only string keys. -/
def checkValuesDict : PyValue → Bool
  | .vdict es =>
      !es.isEmpty && es.all (fun e =>
        match e.1 with
        | .vstr _ => true
        | _ => false)
  | _ => false

/-- The `@check_values(as_list=True)` validity test (_decorators.py:28-38):
`values` must be a non-empty list, every item a dict with only string
keys. -/
def checkValuesList : PyValue → Bool
  | .vlist xs => !xs.isEmpty && xs.all checkValuesDict
  | _ => false

/-- The items of a values list (guarded by `checkValuesList`). -/
def pyListItems : PyValue → List PyValue
  | .vlist xs => xs
  | _ => []

/-- `Repository._delete_all` (_repository.py:535-572): build the DELETE,
execute it, return `False` immediately when no row matched (before any
flush/commit), otherwise flush/commit as requested and return `True`. -/
def deleteAllR (eval : CondEval) (filters : PyValue) (flush commit : Bool)
    (st : SessionState) : Except String (Bool × SessionState) :=
  match buildDeleteStmt filters with
  | .error e => .error e
  | .ok stmt =>
      let (sequence, st1) := executeDeleteReturning eval stmt st
      if sequence.length = 0 then .ok (false, st1)
      else
        let st2 := if flush then flushS st1 else st1
        let st3 := if commit then commitS st2 else st2
        .ok (true, st3)

/-- `Repository._update_all` (_repository.py:366-414), including the
`@check_values(as_list=False)` decorator and the body's own re-check of
`values` (the same condition with a different message, hence
unreachable): build the UPDATE, execute it, flush/commit as requested,
then refresh every returned row unconditionally, and return the row
sequence. -/
def updateAllR (eval : CondEval) (values filters : PyValue) (flush commit : Bool)
    (st : SessionState) : Except String (List Row × SessionState) :=
  if !checkValuesDict values then
    .error "values expected to be a non-empty dictionary with string keys"
  else if !checkValuesDict values then
    .error "values expected to be Dict[str, Any]"
  else
    match buildUpdateStmt values filters with
    | .error e => .error e
    | .ok stmt =>
        let (sequence, st1) := executeUpdateReturning eval stmt st
        let st2 := if flush then flushS st1 else st1
        let st3 := if commit then commitS st2 else st2
        let st4 := refreshS st3 sequence
        .ok (sequence, st4)

/-- `Repository._add_all` (_repository.py:461-496), including the
`@check_values(as_list=True)` decorator: `session.execute(insert_stmt,
values)` inserts one row per values dict and RETURNING yields them;
flush/commit as requested; the inserted rows are refreshed only when
`flush or commit`. -/
def addAllR (values : PyValue) (flush commit : Bool) (st : SessionState) :
    Except String (List Row × SessionState) :=
  if !checkValuesList values then
    .error "values expected to be a list of non-empty dictionary with string keys"
  else
    let sequence := (pyListItems values).map strEntries
    let st1 := { st with rows := st.rows ++ sequence }
    let st2 := if flush then flushS st1 else st1
    let st3 := if commit then commitS st2 else st2
    let st4 := if flush || commit then refreshS st3 sequence else st3
    .ok (sequence, st4)

/-- `Repository._add` (_repository.py:498-533), including the
`@check_values(as_list=False)` decorator: insert the single row,
flush/commit as requested, refresh it only when `flush or commit`. -/
def addR (values : PyValue) (flush commit : Bool) (st : SessionState) :
    Except String (Row × SessionState) :=
  if !checkValuesDict values then
    .error "values expected to be a non-empty dictionary with string keys"
  else
    let item := strEntries values
    let st1 := { st with rows := st.rows ++ [item] }
    let st2 := if flush then flushS st1 else st1
    let st3 := if commit then commitS st2 else st2
    let st4 := if flush || commit then refreshS st3 [item] else st3
    .ok (item, st4)

/-- `zip(order_by, direction)` pair translation as a `filterMap`:
`"desc"`/`"asc"` (exact match) yield a term, other strings none. -/
def dirTerm (cd : String × String) : Option OrderTerm :=
  if cd.2 = "desc" then some (.descT cd.1)
  else if cd.2 = "asc" then some (.ascT cd.1)
  else none

/-- `isinstance(filters, dict)`. -/
def isDictV : PyValue → Bool
  | .vdict _ => true
  | _ => false

/-- The entry count an operator dict contributes after discarding
null-valued entries. -/
def nonNullOpEntries (ops : List (PyValue × PyValue)) : Nat :=
  (ops.filter (fun e => !e.2.isNone)).length

/-- Discard the null-valued operator entries of an operator dict
(non-dict values unchanged). -/
def dropNullOps : PyValue → PyValue
  | .vdict ops => .vdict (ops.filter (fun e => !e.2.isNone))
  | v => v

/-- `isinstance(key, tuple)` — a composite (tuple) field key. -/
def isTupleKey : PyValue → Bool
  | .vtup _ => true
  | _ => false

/-- Python's `(total_results + per_page - 1) // per_page` is the ceiling
of `total_results / per_page` whenever `per_page` is positive. -/
theorem fdiv_add_pred_eq_ceil (t n : Int) (hn : 0 < n) :
    Int.fdiv (t + n - 1) n = ⌈(t : ℚ) / (n : ℚ)⌉ := by
  rw [Int.fdiv_eq_ediv _ hn.le]
  symm
  rw [Int.ceil_eq_iff]
  have hq1 : (t + n - 1) / n * n ≤ t + n - 1 := Int.ediv_mul_le _ hn.ne'
  have hq2 : t + n - 1 < ((t + n - 1) / n + 1) * n := Int.lt_ediv_add_one_mul_self _ hn
  have hnQ : (0 : ℚ) < (n : ℚ) := by exact_mod_cast hn
  constructor
  · rw [lt_div_iff₀ hnQ]
    have hz : ((t + n - 1) / n - 1) * n < t := by nlinarith [hq1]
    exact_mod_cast hz
  · rw [div_le_iff₀ hnQ]
    have hz : t ≤ (t + n - 1) / n * n := by nlinarith [hq2]
    exact_mod_cast hz

/-- C6: for non-null `page` (1-based) and positive `per_page`, the
pagination helper computes `total_pages = ceil(total / per_page)` from the
pre-slice row count, applies `OFFSET (page-1)*per_page` and
`LIMIT per_page` to the statement, and returns a descriptor with exactly
the fields total, page, per_page, total_pages (in that order); if `page`
or `per_page` is null, the statement is returned unmodified with a null
descriptor. -/
theorem C6_apply_pagination (t : Int) (s : SelectStmt) (page perPage : Option Int)
    (p n : Int) :
    (page = none ∨ perPage = none → applyPagination t s page perPage = .ok (s, none)) ∧
    (0 < n →
      applyPagination t s (some p) (some n) =
        .ok ({ s with offsetv := some ((p - 1) * n), limitv := some n },
             some [("total", t), ("page", p), ("per_page", n),
                   ("total_pages", ⌈(t : ℚ) / (n : ℚ)⌉)])) := by
  constructor
  · rintro (h | h) <;> subst h
    · cases perPage <;> rfl
    · cases page <;> rfl
  · intro hn
    simp only [applyPagination, pyFloorDiv, if_neg hn.ne', fdiv_add_pred_eq_ceil t n hn]

/-- Witness for C6 at the spec's own examples: `total=3, per_page=2`
gives `total_pages=2` with `OFFSET 2 LIMIT 2` for page 2; `total=0`
gives `total_pages=0`; null page is a no-op with a null descriptor. -/
theorem C6_apply_pagination_witness :
    (applyPagination 3 {} (some 2) (some 2) =
      .ok ({ offsetv := some 2, limitv := some 2 },
           some [("total", 3), ("page", 2), ("per_page", 2), ("total_pages", 2)])) ∧
    (applyPagination 0 {} (some 1) (some 2) =
      .ok ({ offsetv := some 0, limitv := some 2 },
           some [("total", 0), ("page", 1), ("per_page", 2), ("total_pages", 0)])) ∧
    (applyPagination 5 {} none (some 2) = .ok ({}, none)) := by
  refine ⟨?_, ?_, ?_⟩
  · have h := (C6_apply_pagination 3 {} none (some 2) 2 2).2 (by norm_num)
    rw [h]
    norm_num [Int.ceil_eq_iff]
  · have h := (C6_apply_pagination 0 {} none (some 2) 1 2).2 (by norm_num)
    rw [h]
    norm_num
  · exact (C6_apply_pagination 5 {} none (some 2) 1 2).1 (Or.inl rfl)

/-- C7: the synchronous and asynchronous pagination helpers produce the
same output pair (same sliced statement and same serialized descriptor)
for every statement, page, per_page and count result; the two variants
differ only in suspension. -/
theorem C7_async_sync_pagination_equal (t : Int) (s : SelectStmt)
    (page perPage : Option Int) :
    asyncApplyPagination t s page perPage = applyPagination t s page perPage := by
  cases page <;> cases perPage <;> rfl

theorem orderTermsOf_eq_filterMap (l : List (String × String)) :
    orderTermsOf l = l.filterMap dirTerm := by
  induction l with
  | nil => rfl
  | cons cd rest ih =>
      obtain ⟨c, d⟩ := cd
      by_cases h1 : d = "desc" <;> by_cases h2 : d = "asc" <;>
        simp [orderTermsOf, dirTerm, h1, h2, ih]

/-- C8: `apply_order_by` accepts a single field+direction exactly as the
corresponding singleton lists; with parallel lists of different lengths
it raises (`ValueError`) instead of truncating or zipping to the shorter
list; with equal lengths, the appended ordering terms come exactly from
the pairs whose direction string is `"desc"` or `"asc"` (case-sensitive
exact comparison — any other string contributes nothing). -/
theorem C8_apply_order_by (s : SelectStmt) (c d : String)
    (cols dirs : List String) :
    (applyOrderBy s (some (.str c)) (some (.str d)) =
      applyOrderBy s (some (.list [c])) (some (.list [d]))) ∧
    (cols.length ≠ dirs.length →
      applyOrderBy s (some (.list cols)) (some (.list dirs)) =
        .error "order_by length must be equals to direction length") ∧
    (cols.length = dirs.length →
      applyOrderBy s (some (.list cols)) (some (.list dirs)) =
        .ok { s with orderTerms := s.orderTerms ++ (cols.zip dirs).filterMap dirTerm }) := by
  refine ⟨rfl, fun h => ?_, fun h => ?_⟩
  · simp [applyOrderBy, h]
  · simp [applyOrderBy, h, orderTermsOf_eq_filterMap]

/-- Witness for C8: mismatched lengths raise; a `"desc"`/`"ASC"` pair
keeps only the exact-case `"desc"` term (`"ASC"` is silently dropped);
the single-string form equals the singleton-list form. -/
theorem C8_apply_order_by_witness :
    (applyOrderBy {} (some (.list ["a", "b"])) (some (.list ["asc"])) =
      .error "order_by length must be equals to direction length") ∧
    (applyOrderBy {} (some (.list ["a", "b"])) (some (.list ["desc", "ASC"])) =
      .ok { orderTerms := [OrderTerm.descT "a"] }) ∧
    (applyOrderBy {} (some (.str "a")) (some (.str "asc")) =
      applyOrderBy {} (some (.list ["a"])) (some (.list ["asc"]))) := by
  refine ⟨(C8_apply_order_by {} "a" "asc" ["a", "b"] ["asc"]).2.1 (by decide), ?_,
    (C8_apply_order_by {} "a" "asc" [] []).1⟩
  have h := (C8_apply_order_by {} "a" "asc" ["a", "b"] ["desc", "ASC"]).2.2 rfl
  rw [h]
  rfl

/-- A present non-mapping outer filter expression raises the
`TypeError` of `get_filters`. -/
theorem getFilters_error_of_not_dict (w : Bool) (f : PyValue)
    (h1 : f.isNone = false) (h2 : isDictV f = false) :
    getFilters w f = .error "<filters> must be type of <dict>" := by
  cases f <;> simp_all [getFilters, PyValue.isNone, isDictV]

/-- C9 counterexample: the outer filter expression here IS a mapping,
yet compilation raises the type error, because the nested HAS value
`5` is present and not a mapping — refuting the claimed "only if"
direction. -/
theorem C9_counterexample :
    getFilters false
        (.vdict [(.vcol "a", .vdict [(.vop .HAS, .vint 5)])]) =
      .error "<filters> must be type of <dict>" := by
  simp [getFilters, getFiltersLoop, getConditionsFromDict, opLoop, opCond, exCat,
    PyValue.isNone]

/-- C9 (amended): a null filter expression yields the empty predicate
list without error, and a present non-mapping outer expression raises
the type error; the converse direction fails, since the same type error
is also raised from inside a well-formed mapping when a nested HAS
value is present and not a mapping. -/
theorem C9_get_filters_type_error (w : Bool) (f key v : PyValue)
    (h1 : f.isNone = false) (h2 : isDictV f = false)
    (h3 : v.isNone = false) (h4 : isDictV v = false) :
    (getFilters w .vnone = .ok []) ∧
    (getFilters w f = .error "<filters> must be type of <dict>") ∧
    (getFilters w (.vdict [(key, .vdict [(.vop .HAS, v)])]) =
      .error "<filters> must be type of <dict>") := by
  refine ⟨by simp [getFilters], getFilters_error_of_not_dict w f h1 h2, ?_⟩
  have hv := getFilters_error_of_not_dict w v h3 h4
  simp [getFilters, getFiltersLoop, getConditionsFromDict, opLoop, opCond, exCat,
    h3, hv]

/-- Witness for C9 at concrete inputs: `f = 3` (an int) raises, `None`
compiles to no predicates, and a mapping whose HAS value is `5`
raises. -/
theorem C9_get_filters_type_error_witness :
    (getFilters true .vnone = .ok []) ∧
    (getFilters true (.vint 3) = .error "<filters> must be type of <dict>") ∧
    (getFilters true (.vdict [(.vcol "a", .vdict [(.vop .HAS, .vint 5)])]) =
      .error "<filters> must be type of <dict>") :=
  C9_get_filters_type_error true (.vint 3) (.vcol "a") (.vint 5) rfl rfl rfl rfl

/-- C5: a BETWEEN / BETWEEN_OR_EQUAL entry with a bound of length ≠ 2 is
silently skipped (zero predicates, no error); with a 2-element bound, a
null lower bound contributes only the upper-side predicate, a null upper
bound only the lower-side predicate, and two non-null bounds contribute
both, in lower-upper order. -/
theorem C5_between_bounds (w : Bool) (key a b : PyValue) (xs : List PyValue) :
    (xs.length ≠ 2 →
      getConditionsFromDict w [(key, .vdict [(.vop .BETWEEN, .vlist xs)])] = .ok [] ∧
      getConditionsFromDict w [(key, .vdict [(.vop .BETWEEN_OR_EQUAL, .vlist xs)])] =
        .ok []) ∧
    (b.isNone = false →
      getConditionsFromDict w [(key, .vdict [(.vop .BETWEEN, .vlist [.vnone, b])])] =
        .ok [.ltC key b] ∧
      getConditionsFromDict w
          [(key, .vdict [(.vop .BETWEEN_OR_EQUAL, .vlist [.vnone, b])])] =
        .ok [.leC key b]) ∧
    (a.isNone = false →
      getConditionsFromDict w [(key, .vdict [(.vop .BETWEEN, .vlist [a, .vnone])])] =
        .ok [.gtC key a] ∧
      getConditionsFromDict w
          [(key, .vdict [(.vop .BETWEEN_OR_EQUAL, .vlist [a, .vnone])])] =
        .ok [.geC key a]) ∧
    (a.isNone = false → b.isNone = false →
      getConditionsFromDict w [(key, .vdict [(.vop .BETWEEN, .vlist [a, b])])] =
        .ok [.gtC key a, .ltC key b] ∧
      getConditionsFromDict w
          [(key, .vdict [(.vop .BETWEEN_OR_EQUAL, .vlist [a, b])])] =
        .ok [.geC key a, .leC key b]) := by
  refine ⟨fun h => ?_, fun hb => ?_, fun ha => ?_, fun ha hb => ?_⟩ <;>
    simp_all [getConditionsFromDict, opLoop, opCond, exCat, PyValue.isNone,
      PyValue.pyLen, PyValue.pySubscript]

/-- Witness for C5 at the spec's examples: bound `[None, 10]` constrains
only the upper side, `[5, None]` only the lower side, `[5, 10]` both,
and `[5, 10, 15]` (wrong arity) contributes nothing. -/
theorem C5_between_bounds_witness :
    (getConditionsFromDict false
        [(.vcol "a", .vdict [(.vop .BETWEEN, .vlist [.vint 5, .vint 10, .vint 15])])] =
      .ok []) ∧
    (getConditionsFromDict false
        [(.vcol "a", .vdict [(.vop .BETWEEN, .vlist [.vnone, .vint 10])])] =
      .ok [.ltC (.vcol "a") (.vint 10)]) ∧
    (getConditionsFromDict false
        [(.vcol "a", .vdict [(.vop .BETWEEN, .vlist [.vint 5, .vnone])])] =
      .ok [.gtC (.vcol "a") (.vint 5)]) ∧
    (getConditionsFromDict false
        [(.vcol "a", .vdict [(.vop .BETWEEN, .vlist [.vint 5, .vint 10])])] =
      .ok [.gtC (.vcol "a") (.vint 5), .ltC (.vcol "a") (.vint 10)]) :=
  ⟨((C5_between_bounds false (.vcol "a") (.vint 5) (.vint 10)
      [.vint 5, .vint 10, .vint 15]).1 (by decide)).1,
   ((C5_between_bounds false (.vcol "a") (.vint 5) (.vint 10) []).2.1 rfl).1,
   ((C5_between_bounds false (.vcol "a") (.vint 5) (.vint 10) []).2.2.1 rfl).1,
   ((C5_between_bounds false (.vcol "a") (.vint 5) (.vint 10) []).2.2.2 rfl rfl).1⟩

/-- C1: a HAS entry whose value is a nested filter expression compiles
the nested expression recursively with the same `with_optional` flag and
appends one separate `has()`-wrapped predicate per recursive predicate
(not a single conjunction); an ANY entry contributes nothing when the
recursive compilation yields zero predicates and otherwise exactly one
`any()`-wrapped predicate over the conjunction of all recursive
predicates. -/
theorem C1_has_any (w : Bool) (key : PyValue) (m rest : List (PyValue × PyValue))
    (cs rs : List Condition)
    (hm : getFilters w (.vdict m) = .ok cs)
    (hr : getConditionsFromDict w rest = .ok rs) :
    (getConditionsFromDict w ((key, .vdict [(.vop .HAS, .vdict m)]) :: rest) =
      .ok (cs.map (fun c => Condition.hasC key c) ++ rs)) ∧
    (getConditionsFromDict w ((key, .vdict [(.vop .ANY, .vdict m)]) :: rest) =
      .ok ((if cs.length = 0 then [] else [Condition.anyC key cs]) ++ rs)) := by
  refine ⟨?_, ?_⟩
  · simp [getConditionsFromDict, opLoop, opCond, exCat, PyValue.isNone, hm, hr]
  · by_cases hcs : cs.length = 0 <;>
      simp [getConditionsFromDict, opLoop, opCond, exCat, PyValue.isNone, hm, hr, hcs]

/-- Witness for C1: a nested expression compiling to two predicates gives
two separate `has()` wrappers but a single `any()` over the conjunction;
a nested expression compiling (under `with_optional=True`) to zero
predicates makes ANY contribute nothing. -/
theorem C1_has_any_witness :
    (getConditionsFromDict false
        [(.vcol "a", .vdict [(.vop .HAS,
            .vdict [(.vcol "b", .vdict [(.vop .BETWEEN, .vlist [.vint 1, .vint 2])])])])] =
      .ok [.hasC (.vcol "a") (.gtC (.vcol "b") (.vint 1)),
           .hasC (.vcol "a") (.ltC (.vcol "b") (.vint 2))]) ∧
    (getConditionsFromDict false
        [(.vcol "a", .vdict [(.vop .ANY,
            .vdict [(.vcol "b", .vdict [(.vop .BETWEEN, .vlist [.vint 1, .vint 2])])])])] =
      .ok [.anyC (.vcol "a") [.gtC (.vcol "b") (.vint 1), .ltC (.vcol "b") (.vint 2)]]) ∧
    (getConditionsFromDict true
        [(.vcol "a", .vdict [(.vop .ANY,
            .vdict [(.vcol "b", .vdict [(.vop .EQUAL, .vnone)])])])] =
      .ok []) := by
  have hm : getFilters false
      (.vdict [(.vcol "b", .vdict [(.vop .BETWEEN, .vlist [.vint 1, .vint 2])])]) =
      .ok [.gtC (.vcol "b") (.vint 1), .ltC (.vcol "b") (.vint 2)] := by
    simp [getFilters, getFiltersLoop, getConditionsFromDict, opLoop, opCond, exCat,
      PyValue.isNone, PyValue.pyLen, PyValue.pySubscript]
  have hm0 : getFilters true (.vdict [(.vcol "b", .vdict [(.vop .EQUAL, .vnone)])]) =
      .ok [] := by
    simp [getFilters, getFiltersLoop, getConditionsFromDict, opLoop, opCond, exCat,
      PyValue.isNone]
  have hr : getConditionsFromDict false ([] : List (PyValue × PyValue)) = .ok [] := by
    simp [getConditionsFromDict]
  have hr0 : getConditionsFromDict true ([] : List (PyValue × PyValue)) = .ok [] := by
    simp [getConditionsFromDict]
  refine ⟨?_, ?_, ?_⟩
  · have h := (C1_has_any false (.vcol "a")
      [(.vcol "b", .vdict [(.vop .BETWEEN, .vlist [.vint 1, .vint 2])])] [] _ _ hm hr).1
    simpa using h
  · have h := (C1_has_any false (.vcol "a")
      [(.vcol "b", .vdict [(.vop .BETWEEN, .vlist [.vint 1, .vint 2])])] [] _ _ hm hr).2
    simpa using h
  · have h := (C1_has_any true (.vcol "a")
      [(.vcol "b", .vdict [(.vop .EQUAL, .vnone)])] [] _ _ hm0 hr0).2
    simpa using h

/-- C2 counterexample: under `with_optional=True`, a mapping with a
single (non-null) BETWEEN operator entry compiles to two predicates —
more than its one non-null operator entry — refuting "the number of
predicates produced never exceeds the number of non-null operator
entries". -/
theorem C2_counterexample :
    (getConditionsFromDict true
        [(.vcol "a", .vdict [(.vop .BETWEEN, .vlist [.vint 5, .vint 10])])] =
      .ok [.gtC (.vcol "a") (.vint 5), .ltC (.vcol "a") (.vint 10)]) ∧
    nonNullOpEntries [(.vop .BETWEEN, .vlist [.vint 5, .vint 10])] = 1 := by
  constructor
  · simp [getConditionsFromDict, opLoop, opCond, exCat, PyValue.isNone,
      PyValue.pyLen, PyValue.pySubscript]
  · rfl

theorem opLoop_drop_none (key : PyValue) (ops : List (PyValue × PyValue)) :
    opLoop true key ops = opLoop true key (ops.filter (fun e => !e.2.isNone)) := by
  induction ops with
  | nil => rfl
  | cons kv rest ih =>
      obtain ⟨k, v⟩ := kv
      by_cases hv : v.isNone = true
      · simp [opLoop, hv, List.filter_cons, ih]
      · simp only [Bool.not_eq_true] at hv
        simp [opLoop, hv, List.filter_cons, ih]

/-- C2 (amended): under `with_optional=True` every null-valued operator
entry contributes zero predicates — compiling a mapping gives the same
result as compiling it with all null-valued operator entries removed —
and under `with_optional=False` null values are not skipped (e.g. an
EQUAL entry with value `None` contributes the predicate `key == None`).
The predicate count may however exceed the number of non-null operator
entries (see the counterexample: BETWEEN contributes up to two). -/
theorem C2_optional_null_skip (entries : List (PyValue × PyValue)) (key : PyValue) :
    (getConditionsFromDict true entries =
      getConditionsFromDict true (entries.map (fun kv => (kv.1, dropNullOps kv.2)))) ∧
    (getConditionsFromDict false [(key, .vdict [(.vop .EQUAL, .vnone)])] =
      .ok [.eqC key .vnone]) := by
  constructor
  · induction entries with
    | nil => rfl
    | cons kv rest ih =>
        obtain ⟨k, v⟩ := kv
        cases v <;>
          simp [getConditionsFromDict, dropNullOps, ih, ← opLoop_drop_none]
  · simp [getConditionsFromDict, opLoop, opCond, exCat, PyValue.isNone]

/-- C4 counterexample: a filter-mapping entry whose value is the set
`{1, 2}` compiles to zero predicates — no membership predicate is
produced, refuting the claim. -/
theorem C4_counterexample :
    getConditionsFromDict false [(.vcol "a", .vset [.vint 1, .vint 2])] = .ok [] := by
  simp [getConditionsFromDict, exCat]

/-- C4 (amended): an entry whose (top-level) value is a set is rebound to
a list and then contributes no predicates, since only dict-valued entries
enter the operator loop; a set given as the value of a membership
operator on a scalar (non-tuple) field key is not converted to a list:
IN/NOT_IN pass the set through unchanged, and IIN/NOT_IIN iterate its
elements directly (with implementation-defined element order). -/
theorem C4_set_values (w : Bool) (key : PyValue) (xs : List PyValue)
    (rest : List (PyValue × PyValue)) (rs : List Condition)
    (hk : isTupleKey key = false)
    (hr : getConditionsFromDict w rest = .ok rs) :
    (getConditionsFromDict w ((key, .vset xs) :: rest) = .ok rs) ∧
    (getConditionsFromDict w [(key, .vdict [(.vop .IN, .vset xs)])] =
      .ok [.inC key (.vset xs)]) ∧
    (getConditionsFromDict w [(key, .vdict [(.vop .NOT_IN, .vset xs)])] =
      .ok [.notInC key (.vset xs)]) ∧
    (getConditionsFromDict w [(key, .vdict [(.vop .IIN, .vset xs)])] =
      .ok [.lowerIn key
            (xs.map (fun x => if x.isNull then LowVal.raw x else LowVal.low x))]) := by
  cases hkey : key <;>
    simp_all [getConditionsFromDict, opLoop, opCond, exCat, PyValue.isNone,
      PyValue.wrapIterable, PyValue.isIterable, PyValue.elems, isTupleKey]

/-- Witness for C4 at a concrete input: the set-valued entry `{1}`
contributes nothing, while the same set as an IN operator value is
passed through as a set. -/
theorem C4_set_values_witness :
    (getConditionsFromDict false [(.vcol "a", .vset [.vint 1])] = .ok []) ∧
    (getConditionsFromDict false [(.vcol "a", .vdict [(.vop .IN, .vset [.vint 1])])] =
      .ok [.inC (.vcol "a") (.vset [.vint 1])]) := by
  have h := C4_set_values false (.vcol "a") [.vint 1] [] [] rfl
    (by simp [getConditionsFromDict])
  exact ⟨h.1, h.2.1⟩

/-- C3 counterexample: two update-all runs, each matching exactly one
row, report different values — and each reported value is the list of
updated rows, not a boolean; so the reported success of update-all is
not "a boolean that is true iff at least one row matched". -/
theorem C3_counterexample :
    ((updateAllR (fun _ _ => true) (.vdict [(.vstr "x", .vint 9)]) .vnone false false
        ⟨[[("id", .vint 1)]], [], []⟩).map Prod.fst =
      .ok [[("id", PyValue.vint 1), ("x", PyValue.vint 9)]]) ∧
    ((updateAllR (fun _ _ => true) (.vdict [(.vstr "x", .vint 9)]) .vnone false false
        ⟨[[("id", .vint 2)]], [], []⟩).map Prod.fst =
      .ok [[("id", PyValue.vint 2), ("x", PyValue.vint 9)]]) ∧
    ((.ok [[("id", PyValue.vint 1), ("x", PyValue.vint 9)]] :
        Except String (List Row)) ≠
      .ok [[("id", PyValue.vint 2), ("x", PyValue.vint 9)]]) := by
  refine ⟨?_, ?_, by simp⟩ <;>
    simp [updateAllR, checkValuesDict, buildUpdateStmt, getFilters, strEntries,
      executeUpdateReturning, rowMatches, applyValues, setCol, refreshS, flushS,
      commitS, Except.map]

/-- C3 (amended): delete-all reports success as a boolean that is true
iff at least one row matched the compiled filter, and a delete-all whose
filter matches zero rows returns `false` with the session state (hence
durable state) unchanged; update-all, however, returns the sequence of
updated rows (the matched rows with the SET payload applied), not a
boolean. -/
theorem C3_delete_bool_update_rows (eval : CondEval) (filters values : PyValue)
    (conds : List Condition) (flush commit : Bool) (st : SessionState)
    (hc : getFilters false filters = .ok conds) :
    (∀ b st', deleteAllR eval filters flush commit st = .ok (b, st') →
        (b = true ↔ st.rows.filter (rowMatches eval conds) ≠ [])) ∧
    (st.rows.filter (rowMatches eval conds) = [] →
        deleteAllR eval filters flush commit st = .ok (false, st)) ∧
    (∀ seq st', updateAllR eval values filters flush commit st = .ok (seq, st') →
        seq = (st.rows.filter (rowMatches eval conds)).map
          (applyValues (strEntries values))) := by
  refine ⟨?_, ?_, ?_⟩
  · intro b st' h
    by_cases h0 : (st.rows.filter (rowMatches eval conds)).length = 0
    · simp [deleteAllR, buildDeleteStmt, hc, executeDeleteReturning, h0] at h
      simp [← h.1, List.length_eq_zero.mp h0]
    · simp [deleteAllR, buildDeleteStmt, hc, executeDeleteReturning, h0] at h
      obtain ⟨hb, -⟩ := h
      subst hb
      exact ⟨fun _ hnil => h0 (by simp [hnil]), fun _ => rfl⟩
  · intro h0
    have hall : ∀ r ∈ st.rows, ¬(rowMatches eval conds r = true) :=
      List.filter_eq_nil_iff.mp h0
    have hkeep : st.rows.filter (fun r => !rowMatches eval conds r) = st.rows :=
      List.filter_eq_self.mpr (fun r hr => by simp [hall r hr])
    simp [deleteAllR, buildDeleteStmt, hc, executeDeleteReturning, h0, hkeep]
  · intro seq st' h
    by_cases hcv : checkValuesDict values = true
    · simp [updateAllR, hcv, buildUpdateStmt, hc, executeUpdateReturning] at h
      exact h.1.symm
    · simp [updateAllR, hcv] at h

/-- Witness for C3 (amended) on a concrete session: a filter matching no
row makes delete-all return `false` with the state unchanged; a filter
matching the single row reports `true` iff the matched-row list is
non-empty; update-all returns the updated-row list. -/
theorem C3_delete_bool_update_rows_witness :
    (deleteAllR (fun _ _ => false)
        (.vdict [(.vcol "id", .vdict [(.vop .EQUAL, .vint 99)])]) true false
        ⟨[[("id", .vint 1)]], [[("id", .vint 1)]], []⟩ =
      .ok (false, ⟨[[("id", .vint 1)]], [[("id", .vint 1)]], []⟩)) ∧
    ((true = true) ↔
      ([[("id", PyValue.vint 1)]] : List Row).filter
          (rowMatches (fun _ _ => true) [.eqC (.vcol "id") (.vint 1)]) ≠ []) ∧
    (([[("id", PyValue.vint 1), ("x", PyValue.vint 9)]] : List Row) =
      (([[("id", PyValue.vint 1)]] : List Row).filter
          (rowMatches (fun _ _ => true) [.eqC (.vcol "id") (.vint 1)])).map
        (applyValues (strEntries (.vdict [(.vstr "x", .vint 9)])))) := by
  have hc1 : getFilters false (.vdict [(.vcol "id", .vdict [(.vop .EQUAL, .vint 99)])]) =
      .ok [.eqC (.vcol "id") (.vint 99)] := by
    simp [getFilters, getFiltersLoop, getConditionsFromDict, opLoop, opCond, exCat,
      PyValue.isNone]
  have hc2 : getFilters false (.vdict [(.vcol "id", .vdict [(.vop .EQUAL, .vint 1)])]) =
      .ok [.eqC (.vcol "id") (.vint 1)] := by
    simp [getFilters, getFiltersLoop, getConditionsFromDict, opLoop, opCond, exCat,
      PyValue.isNone]
  have hd : deleteAllR (fun _ _ => true)
      (.vdict [(.vcol "id", .vdict [(.vop .EQUAL, .vint 1)])]) true false
      ⟨[[("id", .vint 1)]], [[("id", .vint 1)]], []⟩ =
      .ok (true, ⟨[], [[("id", .vint 1)]], []⟩) := by
    simp [deleteAllR, buildDeleteStmt, hc2, executeDeleteReturning, rowMatches,
      flushS, commitS]
  have hu : updateAllR (fun _ _ => true) (.vdict [(.vstr "x", .vint 9)])
      (.vdict [(.vcol "id", .vdict [(.vop .EQUAL, .vint 1)])]) false false
      ⟨[[("id", .vint 1)]], [], []⟩ =
      .ok ([[("id", .vint 1), ("x", .vint 9)]],
           ⟨[[("id", .vint 1), ("x", .vint 9)]], [],
            [[("id", .vint 1), ("x", .vint 9)]]⟩) := by
    simp [updateAllR, checkValuesDict, buildUpdateStmt, hc2, strEntries,
      executeUpdateReturning, rowMatches, applyValues, setCol, refreshS, flushS,
      commitS]
  refine ⟨?_, ?_, ?_⟩
  · exact (C3_delete_bool_update_rows (fun _ _ => false) _ .vnone _ true false _ hc1).2.1
      (by simp [rowMatches])
  · exact (C3_delete_bool_update_rows (fun _ _ => true) _ .vnone _ true false _ hc2).1
      true _ hd
  · exact (C3_delete_bool_update_rows (fun _ _ => true) _
      (.vdict [(.vstr "x", .vint 9)]) _ false false _ hc2).2.2 _ _ hu

/-- C10: the refresh side effect of update-all is unconditional on the
`flush`/`commit` flags — every returned (matched) row is refreshed even
with `flush=False, commit=False` — whereas add and add-all refresh the
inserted rows only when `flush` or `commit` is true. -/
theorem C10_refresh_side_effects (eval : CondEval) (values filters : PyValue)
    (flush commit : Bool) (st : SessionState) :
    (∀ seq st', updateAllR eval values filters flush commit st = .ok (seq, st') →
        st'.refreshed = st.refreshed ++ seq) ∧
    (∀ seq st', addAllR values flush commit st = .ok (seq, st') →
        st'.refreshed =
          (if flush || commit then st.refreshed ++ seq else st.refreshed)) ∧
    (∀ item st', addR values flush commit st = .ok (item, st') →
        st'.refreshed =
          (if flush || commit then st.refreshed ++ [item] else st.refreshed)) := by
  refine ⟨?_, ?_, ?_⟩
  · intro seq st' h
    by_cases hcv : checkValuesDict values = true
    · cases hb : buildUpdateStmt values filters with
      | error e => simp [updateAllR, hcv, hb] at h
      | ok stmt =>
          simp [updateAllR, hcv, hb, executeUpdateReturning] at h
          cases flush <;> cases commit <;>
            simp_all [flushS, commitS, refreshS] <;>
            simp [← h.2, ← h.1]
    · simp [updateAllR, hcv] at h
  · intro seq st' h
    by_cases hcl : checkValuesList values = true
    · simp [addAllR, hcl] at h
      cases flush <;> cases commit <;>
        simp_all [flushS, commitS, refreshS] <;>
        simp [← h.2, ← h.1]
    · simp [addAllR, hcl] at h
  · intro item st' h
    by_cases hcv : checkValuesDict values = true
    · simp [addR, hcv] at h
      cases flush <;> cases commit <;>
        simp_all [flushS, commitS, refreshS] <;>
        simp [← h.2, ← h.1]
    · simp [addR, hcv] at h

/-- Witness for C10 on a concrete session with one row: update-all with
`flush=False, commit=False` still refreshes the updated row; add-all with
both flags false refreshes nothing; add-all with `commit=True` refreshes
the inserted rows. -/
theorem C10_refresh_side_effects_witness :
    (updateAllR (fun _ _ => true) (.vdict [(.vstr "x", .vint 1)]) .vnone false false
        ⟨[[("id", .vint 7)]], [], []⟩ =
      .ok ([[("id", .vint 7), ("x", .vint 1)]],
           ⟨[[("id", .vint 7), ("x", .vint 1)]], [],
            [[("id", .vint 7), ("x", .vint 1)]]⟩) ∧
      ([[("id", PyValue.vint 7), ("x", PyValue.vint 1)]] : List Row) =
        [] ++ [[("id", PyValue.vint 7), ("x", PyValue.vint 1)]]) ∧
    (addAllR (.vlist [.vdict [(.vstr "y", .vint 2)]]) false false
        ⟨[[("id", .vint 7)]], [], []⟩ =
      .ok ([[("y", .vint 2)]],
           ⟨[[("id", .vint 7)], [("y", .vint 2)]], [], []⟩) ∧
      ([] : List Row) = (if (false || false : Bool) then [] ++ [[("y", PyValue.vint 2)]] else [])) ∧
    (addAllR (.vlist [.vdict [(.vstr "y", .vint 2)]]) false true
        ⟨[[("id", .vint 7)]], [], []⟩ =
      .ok ([[("y", .vint 2)]],
           ⟨[[("id", .vint 7)], [("y", .vint 2)]],
            [[("id", .vint 7)], [("y", .vint 2)]], [[("y", .vint 2)]]⟩) ∧
      ([[("y", PyValue.vint 2)]] : List Row) =
        (if (false || true : Bool) then [] ++ [[("y", PyValue.vint 2)]] else [])) := by
  have h1 : updateAllR (fun _ _ => true) (.vdict [(.vstr "x", .vint 1)]) .vnone
      false false ⟨[[("id", .vint 7)]], [], []⟩ =
      .ok ([[("id", .vint 7), ("x", .vint 1)]],
           ⟨[[("id", .vint 7), ("x", .vint 1)]], [],
            [[("id", .vint 7), ("x", .vint 1)]]⟩) := by
    simp [updateAllR, checkValuesDict, buildUpdateStmt, getFilters, strEntries,
      executeUpdateReturning, rowMatches, applyValues, setCol, refreshS, flushS,
      commitS]
  have h2 : addAllR (.vlist [.vdict [(.vstr "y", .vint 2)]]) false false
      ⟨[[("id", .vint 7)]], [], []⟩ =
      .ok ([[("y", .vint 2)]], ⟨[[("id", .vint 7)], [("y", .vint 2)]], [], []⟩) := by
    simp [addAllR, checkValuesList, checkValuesDict, pyListItems, strEntries,
      refreshS, flushS, commitS]
  have h3 : addAllR (.vlist [.vdict [(.vstr "y", .vint 2)]]) false true
      ⟨[[("id", .vint 7)]], [], []⟩ =
      .ok ([[("y", .vint 2)]],
           ⟨[[("id", .vint 7)], [("y", .vint 2)]],
            [[("id", .vint 7)], [("y", .vint 2)]], [[("y", .vint 2)]]⟩) := by
    simp [addAllR, checkValuesList, checkValuesDict, pyListItems, strEntries,
      refreshS, flushS, commitS]
  refine ⟨⟨h1, ?_⟩, ⟨h2, ?_⟩, ⟨h3, ?_⟩⟩
  · exact (C10_refresh_side_effects (fun _ _ => true) (.vdict [(.vstr "x", .vint 1)])
      .vnone false false ⟨[[("id", .vint 7)]], [], []⟩).1 _ _ h1
  · exact (C10_refresh_side_effects (fun _ _ => true)
      (.vlist [.vdict [(.vstr "y", .vint 2)]]) .vnone false false
      ⟨[[("id", .vint 7)]], [], []⟩).2.1 _ _ h2
  · exact (C10_refresh_side_effects (fun _ _ => true)
      (.vlist [.vdict [(.vstr "y", .vint 2)]]) .vnone false true
      ⟨[[("id", .vint 7)]], [], []⟩).2.1 _ _ h3
